import Mathlib

/-!
# GutSense backend — verification of the spec against the code

Shallow embedding of the gutsense-backend repository:

* `src/api/analyze-food-simple.js` — the mock food-analysis handler
  (`simpleHandler`, `mockAnalysis`);
* the Gemini food-analysis serverless function — `geminiHandler`,
  `fallbackAnalysis`; the external AI call is a parameter (`AiOutcome`);
* `src/api/health.js` — `healthHandler`;
* the rule-based compatibility engine of the FastAPI backend, which is not
  shipped in the repository (only its README pseudocode is): `classify`,
  modelled from the specification.

JSON response bodies are modelled by the inductive `Json`; JavaScript
string truthiness (`undefined`/`""` are falsy) by `jsTruthy`; the current
time is passed explicitly so that time dependence is visible in the types.
-/

set_option autoImplicit false

namespace GutSense

/-- A JSON value, enough to express the response bodies the handlers build. -/
inductive Json where
  | str (s : String)
  | nat (n : Nat)
  | bool (b : Bool)
  | arr (elems : List Json)
  | obj (fields : List (String × Json))

/-- First value bound to a key in an association list of JSON fields. -/
def lookupKey : List (String × Json) → String → Option Json
  | [], _ => none
  | (k, v) :: fs, key => if key == k then some v else lookupKey fs key

/-- Field lookup on a JSON object; `none` on non-objects. -/
def Json.lookup : Json → String → Option Json
  | .obj fs, key => lookupKey fs key
  | _, _ => none

/-- JavaScript property assignment `o[k] = v` on an association list:
overwrite an existing key in place, otherwise append. -/
def setKey (fs : List (String × Json)) (k : String) (v : Json) : List (String × Json) :=
  cond (fs.any (fun kv => kv.1 == k))
    (fs.map (fun kv => cond (kv.1 == k) (k, v) kv))
    (fs ++ [(k, v)])

/-- JavaScript property assignment on a JSON value; on a non-object the
handler assignments have no observable effect we model. -/
def Json.setField : Json → String → Json → Json
  | .obj fs, k, v => .obj (setKey fs k v)
  | j, _, _ => j

/-- JavaScript truthiness of an optional string: `undefined` and `""` are
falsy, every other string is truthy. -/
def jsTruthy : Option String → Bool
  | none => false
  | some s => !(s == "")

/-- HTTP methods the handlers distinguish. -/
inductive Method where
  | GET | POST | PUT | DELETE | OPTIONS | PATCH | HEAD
  deriving DecidableEq

/-- The request data the handlers read: the method and the two body fields
`image` and `food_name` (absent fields are `none`). -/
structure Req where
  method : Method
  image : Option String
  food_name : Option String
  deriving DecidableEq

/-- An HTTP response: status code and optional JSON body
(`res.end()` with no body is `none`). -/
structure Response where
  status : Nat
  body : Option Json

/-- The mock analysis object of `src/api/analyze-food-simple.js`, with the
`new Date().toISOString()` timestamp passed in as `now`. -/
def mockAnalysis (now : String) : Json :=
  .obj
    [ ("name", .str "Indian Food Detected")
    , ("category", .str "indian")
    , ("confidence", .nat 85)
    , ("spiceLevel", .nat 3)
    , ("gutImpact", .str "medium")
    , ("fermented", .bool false)
    , ("reaction", .str "caution")
    , ("explanation", .str "This appears to be an Indian dish. The spices and preparation method suggest moderate gut impact. Consider your spice tolerance.")
    , ("alternatives", .arr [.str "Plain rice", .str "Steamed vegetables", .str "Yogurt"])
    , ("tips", .arr [.str "Eat slowly", .str "Drink water", .str "Monitor your response"])
    , ("nutritionalInfo", .obj
        [ ("calories", .str "200-400 per serving")
        , ("fiber", .str "medium")
        , ("probiotics", .bool false)
        , ("inflammatory", .bool false) ])
    , ("recognitionMethod", .str "mock_analysis")
    , ("timestamp", .str now)
    , ("note", .str "This is a mock response while Gemini integration is being configured") ]

/-- Handler of src/api/analyze-food-simple.js: OPTIONS preflight, POST-only
gate, `Image required` check, then the mock analysis. -/
def simpleHandler (req : Req) (now : String) : Response :=
  if req.method = Method.OPTIONS then
    ⟨200, none⟩
  else if req.method ≠ Method.POST then
    ⟨405, some (.obj [("error", .str "Method not allowed")])⟩
  else if jsTruthy req.image = false then
    ⟨400, some (.obj [("error", .str "Image required")])⟩
  else
    ⟨200, some (mockAnalysis now)⟩

/-- Outcome of the external Gemini call as the handler observes it:
either `generateContent`/`response.text()` threw (`failure` with the error
message), or it produced text whose cleaned form JSON-parses to
`some` value or fails to parse (`none`). -/
inductive AiOutcome where
  | failure (msg : String)
  | success (parsed : Option Json)

/-- The hard-coded fallback analysis the Gemini handler builds when the AI
response cannot be parsed as JSON. -/
def fallbackAnalysis (now : String) : Json :=
  .obj
    [ ("name", .str "Food Analysis")
    , ("category", .str "unknown")
    , ("confidence", .nat 75)
    , ("spiceLevel", .nat 2)
    , ("gutImpact", .str "medium")
    , ("fermented", .bool false)
    , ("reaction", .str "caution")
    , ("explanation", .str "AI analysis completed but response format needs adjustment. The food appears to be edible but please consult with a nutritionist for personalized advice.")
    , ("alternatives", .arr [.str "Steamed vegetables", .str "Plain rice", .str "Yogurt"])
    , ("tips", .arr [.str "Eat in moderation", .str "Monitor your body\x27s response", .str "Stay hydrated"])
    , ("nutritionalInfo", .obj
        [ ("calories", .str "varies")
        , ("fiber", .str "medium")
        , ("probiotics", .bool false)
        , ("inflammatory", .bool false) ])
    , ("recognitionMethod", .str "gemini_ai_fallback")
    , ("timestamp", .str now)
    , ("note", .str "Response parsing issue - using fallback analysis") ]

/-- The metadata the Gemini handler adds to the analysis before responding:
`apiVersion`, `model` and the `Date.now()` millisecond clock `nowMs`. -/
def addMeta (j : Json) (nowMs : Nat) : Json :=
  ((j.setField "apiVersion" (.str "1.0")).setField "model"
      (.str "gemini-2.0-flash-exp")).setField "processingTime" (.nat nowMs)

/-- The Gemini food-analysis serverless function. `apiKey` is
`process.env.GEMINI_API_KEY` (`none` when unset), `ai` the outcome of the
external call, `now` the ISO timestamp, `nowMs` the millisecond clock. -/
def geminiHandler (apiKey : Option String) (req : Req) (ai : AiOutcome)
    (now : String) (nowMs : Nat) : Response :=
  if req.method = Method.OPTIONS then
    ⟨200, none⟩
  else if req.method ≠ Method.POST then
    ⟨405, some (.obj
      [ ("error", .str "Method not allowed")
      , ("message", .str "Only POST requests are supported") ])⟩
  else if jsTruthy apiKey = false then
    ⟨500, some (.obj
      [ ("error", .str "Configuration error")
      , ("message", .str "API key not configured") ])⟩
  else if jsTruthy req.image = false then
    ⟨400, some (.obj
      [ ("error", .str "Bad request")
      , ("message", .str "Image data is required") ])⟩
  else
    match ai with
    | .failure msg =>
        ⟨500, some (.obj
          [ ("error", .str "Analysis failed")
          , ("message", .str (if msg == "" then "An unexpected error occurred" else msg))
          , ("recognitionMethod", .str "error")
          , ("timestamp", .str now) ])⟩
    | .success parsed =>
        let analysisData :=
          match parsed with
          | some j => j
          | none => fallbackAnalysis now
        ⟨200, some (addMeta analysisData nowMs)⟩

/-- Handler of src/api/health.js: reports whether `GEMINI_API_KEY` is set
(JavaScript truthiness: a set-but-empty variable counts as unset). -/
def healthHandler (apiKey : Option String) (req : Req) (now : String) : Response :=
  if req.method = Method.OPTIONS then
    ⟨200, none⟩
  else
    ⟨200, some (.obj
      [ ("status", .str "healthy")
      , ("message", .str "🦠 GutSense Backend API is running!")
      , ("version", .str "1.0.0")
      , ("timestamp", .str now)
      , ("cors", .str "enabled")
      , ("gemini", .str (if jsTruthy apiKey then "configured" else "not_configured")) ])⟩

/-! ## The compatibility rule engine

The FastAPI rule engine itself is not shipped in this repository — the
README documents its endpoints, pseudocode and data model but the Python
sources are absent — so the engine is modelled from the specification:
an ordered rule list evaluated first-match-wins. -/

/-- The verdict vocabulary of the engine. -/
inductive Reaction where
  | suitable | caution | avoid
  deriving DecidableEq

/-- The gut profile of a user as the engine consumes it: gut type, sensitivity
tags, and ordinal spice tolerance. -/
structure GutProfile where
  gut_type : String
  sensitivities : List String
  spice_tolerance : Nat
  deriving DecidableEq

/-- Modelled from the spec: the fixed food-category vocabulary
(fried, spicy, dairy, acidic, high_fiber, fermented, gentle, processed). -/
def categoryVocabulary : List String :=
  ["fried", "spicy", "dairy", "acidic", "high_fiber", "fermented", "gentle", "processed"]

/-- Modelled from the spec: the enumerated gut types. -/
def gutTypeVocabulary : List String :=
  ["balanced", "high_inflammation", "low_diversity"]

/-- Every supplied category lies in the fixed vocabulary. -/
def validCategories (cats : List String) : Bool :=
  cats.all (fun c => categoryVocabulary.contains c)

/-- The gut type and spice tolerance of the profile are within their enumerated
ranges (gut types per the registry; spice tolerance 1–3). -/
def validProfile (p : GutProfile) : Bool :=
  gutTypeVocabulary.contains p.gut_type
    && (1 ≤ p.spice_tolerance && p.spice_tolerance ≤ 3)

/-- One declarative rule: a predicate on (categories, profile) and a fixed
outcome (reaction, explanation, confidence constant). -/
structure Rule where
  pred : List String → GutProfile → Bool
  reaction : Reaction
  explanation : String
  confidenceScore : Nat

/-- What `classify` returns on success. -/
structure ClassifyResult where
  reaction : Reaction
  explanation : String
  confidenceScore : Nat
  deriving DecidableEq

/-- Modelled from the spec: the ordered priority list of rules of the
missing rule engine, exactly in the order the spec lists; the default
(rule 6) is split into its processed-category arm and the final
catch-all so every rule carries a fixed outcome. -/
def rules : List Rule :=
  [ ⟨fun cats p => p.sensitivities.contains "lactose" && cats.contains "dairy",
      .avoid, "Dairy conflicts with your lactose sensitivity", 90⟩
  , ⟨fun cats p => p.gut_type == "high_inflammation" && cats.contains "fried",
      .avoid, "Fried food aggravates a high inflammation gut", 90⟩
  , ⟨fun cats p => p.spice_tolerance == 1 && cats.contains "spicy",
      .avoid, "Spicy food exceeds your spice tolerance", 90⟩
  , ⟨fun cats _ => cats.contains "fermented" || cats.contains "high_fiber",
      .suitable, "Fermented and high fiber foods are generally beneficial", 80⟩
  , ⟨fun cats p => cats.contains "acidic" && p.sensitivities.contains "acidity",
      .caution, "Acidic food may trigger your acidity sensitivity", 70⟩
  , ⟨fun cats _ => cats.contains "processed",
      .caution, "Processed food warrants moderation", 60⟩
  , ⟨fun _ _ => true,
      .suitable, "No compatibility concerns found", 60⟩ ]

/-- First-match evaluation of an ordered rule list. The final catch-all in
`rules` makes the empty case unreachable there. -/
def runRules : List Rule → List String → GutProfile → ClassifyResult
  | [], _, _ => ⟨.caution, "", 0⟩
  | r :: rs, cats, p =>
      if r.pred cats p then ⟨r.reaction, r.explanation, r.confidenceScore⟩
      else runRules rs cats p

/-- Index of the first rule of a list whose predicate holds (length of the
list when none does). -/
def firstMatch : List Rule → List String → GutProfile → Nat
  | [], _, _ => 0
  | r :: rs, cats, p =>
      if r.pred cats p then 0 else firstMatch rs cats p + 1

/-- The index of the rule that fires for a given input. -/
def firedRule (cats : List String) (p : GutProfile) : Nat :=
  firstMatch rules cats p

/-- Does the predicate of the `i`-th rule hold on this input? -/
def ruleMatches (i : Nat) (cats : List String) (p : GutProfile) : Bool :=
  match rules.get? i with
  | some r => r.pred cats p
  | none => false

/-- The failure vocabulary of the engine. -/
inductive ClassifyError where
  | InvalidCategory | InvalidProfile
  deriving DecidableEq

/-- Modelled from the spec: `classify(foodCategories, profile)` of the
missing rule engine — validate the category vocabulary and the enumerated
profile fields, then evaluate the ordered rules first-match-wins. -/
def classify (cats : List String) (p : GutProfile) :
    Except ClassifyError ClassifyResult :=
  if validCategories cats = false then .error .InvalidCategory
  else if validProfile p = false then .error .InvalidProfile
  else .ok (runRules rules cats p)

/-- Outcome carried by the `i`-th rule of a list (engine default when out
of range). -/
def outcomeAt (rs : List Rule) (i : Nat) : ClassifyResult :=
  match rs.get? i with
  | some r => ⟨r.reaction, r.explanation, r.confidenceScore⟩
  | none => ⟨.caution, "", 0⟩

/-- A possible parsed Gemini payload (the image of `JSON.parse` on a
well-formed upstream reply) whose confidence lies outside 0–100; the
handler forwards it without range validation. -/
def overconfidentPayload : Json :=
  .obj
    [ ("name", .str "Mystery Curry")
    , ("category", .str "indian")
    , ("confidence", .nat 150)
    , ("reaction", .str "caution")
    , ("explanation", .str "Upstream reply carrying an out of range confidence")
    , ("alternatives", .arr [.str "Plain rice"])
    , ("recognitionMethod", .str "gemini_ai") ]

/-- A possible parsed Gemini payload whose reaction lies outside the
documented vocabulary; the handler forwards it without validation. -/
def oddReactionPayload : Json :=
  .obj
    [ ("name", .str "Mystery Dish")
    , ("category", .str "unknown")
    , ("confidence", .nat 80)
    , ("reaction", .str "delicious")
    , ("explanation", .str "Upstream reply carrying a reaction outside the vocabulary")
    , ("alternatives", .arr [.str "Plain rice"])
    , ("recognitionMethod", .str "gemini_ai") ]

/-! ## Lemmas -/

theorem lookupKey_map_set_ne (fs : List (String × Json)) (k : String) (v : Json)
    (key : String) (h : (key == k) = false) :
    lookupKey (fs.map (fun kv => cond (kv.1 == k) (k, v) kv)) key
      = lookupKey fs key := by
  induction fs with
  | nil => rfl
  | cons kv fs ih =>
      rcases kv with ⟨k1, v1⟩
      rcases h1 : (k1 == k) with _ | _
      · simp [lookupKey, h1, ih]
      · have hk : k1 = k := eq_of_beq h1
        subst hk
        simp [lookupKey, h1, h, ih]

theorem lookupKey_append_single_ne (fs : List (String × Json)) (k : String)
    (v : Json) (key : String) (h : (key == k) = false) :
    lookupKey (fs ++ [(k, v)]) key = lookupKey fs key := by
  induction fs with
  | nil => simp [lookupKey, h]
  | cons kv fs ih => by_cases h1 : (key == kv.1) = true <;> simp [lookupKey, h1, ih]

theorem lookup_setField_ne (j : Json) (k : String) (v : Json) (key : String)
    (h : (key == k) = false) :
    (j.setField k v).lookup key = j.lookup key := by
  cases j with
  | obj fs =>
      simp only [Json.setField, setKey]
      rcases ha : fs.any (fun kv => kv.1 == k) with _ | _
      · simp [Json.lookup, lookupKey_append_single_ne fs k v key h]
      · simp [Json.lookup, lookupKey_map_set_ne fs k v key h]
  | str s => rfl
  | nat n => rfl
  | bool b => rfl
  | arr elems => rfl

theorem lookup_addMeta (j : Json) (ms : Nat) (key : String)
    (h1 : (key == "apiVersion") = false) (h2 : (key == "model") = false)
    (h3 : (key == "processingTime") = false) :
    (addMeta j ms).lookup key = j.lookup key := by
  unfold addMeta
  rw [lookup_setField_ne _ _ _ _ h3, lookup_setField_ne _ _ _ _ h2,
    lookup_setField_ne _ _ _ _ h1]

theorem runRules_eq_outcomeAt (rs : List Rule) (cats : List String) (p : GutProfile) :
    runRules rs cats p = outcomeAt rs (firstMatch rs cats p) := by
  induction rs with
  | nil => rfl
  | cons r rs ih =>
      by_cases h : r.pred cats p
      · simp [runRules, firstMatch, h, outcomeAt]
      · simp [runRules, firstMatch, h, outcomeAt, ih]

theorem classify_ok_iff (cats : List String) (p : GutProfile) :
    (∃ r, classify cats p = .ok r) ↔
      (validCategories cats = true ∧ validProfile p = true) := by
  constructor
  · rintro ⟨r, hr⟩
    unfold classify at hr
    constructor
    · by_contra h
      simp [Bool.not_eq_true] at h
      simp [h] at hr
    · by_contra h
      simp [Bool.not_eq_true] at h
      rcases hv : validCategories cats <;> simp [hv, h] at hr
  · rintro ⟨hc, hp⟩
    exact ⟨runRules rules cats p, by simp [classify, hc, hp]⟩

theorem classify_ok_eq (cats : List String) (p : GutProfile) (r : ClassifyResult)
    (h : classify cats p = .ok r) : r = outcomeAt rules (firedRule cats p) := by
  unfold classify at h
  rcases hv : validCategories cats <;> rcases hp : validProfile p <;>
    simp [hv, hp] at h
  rw [← h, runRules_eq_outcomeAt]
  rfl

theorem outcomeAt_confidence_le (i : Nat) :
    (outcomeAt rules i).confidenceScore ≤ 100 := by
  rcases i with _ | _ | _ | _ | _ | _ | _ | n <;> simp [outcomeAt, rules]

theorem outcomeAt_reaction_mem (i : Nat) :
    (outcomeAt rules i).reaction
      ∈ [Reaction.suitable, Reaction.caution, Reaction.avoid] := by
  rcases i with _ | _ | _ | _ | _ | _ | _ | n <;> simp [outcomeAt, rules]

/-! ## Claims -/

/-- C1: for every profile with sensitivity "lactose" and gut_type
high_inflammation and every valid category set containing both "dairy" and
"fried", `classify` returns the verdict avoid via the lactose/dairy rule
(index 0), and that rule fires even though the high_inflammation/fried rule
(index 1) also matches: rules are evaluated in listed order and the first
matching rule wins. -/
theorem claim1_rule_priority_first_match (cats : List String) (p : GutProfile)
    (hv : validCategories cats = true) (hp : validProfile p = true)
    (hl : "lactose" ∈ p.sensitivities)
    (hg : p.gut_type = "high_inflammation")
    (hd : "dairy" ∈ cats) (hf : "fried" ∈ cats) :
    classify cats p
        = .ok ⟨.avoid, "Dairy conflicts with your lactose sensitivity", 90⟩
      ∧ firedRule cats p = 0
      ∧ ruleMatches 0 cats p = true ∧ ruleMatches 1 cats p = true := by
  refine ⟨?_, ?_, ?_, ?_⟩
  · simp [classify, hv, hp, rules, runRules, hl, hd]
  · simp [firedRule, rules, firstMatch, hl, hd]
  · simp [ruleMatches, rules, hl, hd]
  · simp [ruleMatches, rules, hg, hf]

/-- Witness for C1: the concrete rule-priority test vector of the spec,
categories `["dairy", "fried"]` against a lactose-sensitive
high-inflammation profile. -/
theorem claim1_rule_priority_witness :
    classify ["dairy", "fried"] ⟨"high_inflammation", ["lactose"], 2⟩
        = .ok ⟨.avoid, "Dairy conflicts with your lactose sensitivity", 90⟩
      ∧ firedRule ["dairy", "fried"] ⟨"high_inflammation", ["lactose"], 2⟩ = 0
      ∧ ruleMatches 0 ["dairy", "fried"] ⟨"high_inflammation", ["lactose"], 2⟩ = true
      ∧ ruleMatches 1 ["dairy", "fried"] ⟨"high_inflammation", ["lactose"], 2⟩ = true :=
  claim1_rule_priority_first_match ["dairy", "fried"]
    ⟨"high_inflammation", ["lactose"], 2⟩ rfl rfl (by decide) rfl (by decide) (by decide)

/-- C2: `classify` fails with InvalidCategory whenever a supplied category
is outside the fixed vocabulary, fails with InvalidProfile whenever
(the categories being valid) gut_type or spice_tolerance is out of its
enumerated range, and does not fail on any valid pair; as a pure function
it has no side effects. -/
theorem claim2_classify_error_conditions (cats : List String) (p : GutProfile) :
    (validCategories cats = false → classify cats p = .error .InvalidCategory)
      ∧ (validCategories cats = true → validProfile p = false →
          classify cats p = .error .InvalidProfile)
      ∧ (validCategories cats = true → validProfile p = true →
          ∃ r, classify cats p = .ok r) :=
  ⟨fun h => by simp [classify, h],
   fun hc hp => by simp [classify, hc, hp],
   fun hc hp => ⟨runRules rules cats p, by simp [classify, hc, hp]⟩⟩

/-- Witness for C2: an unknown category fails with InvalidCategory, an
out-of-range spice tolerance fails with InvalidProfile, and a valid pair
succeeds. -/
theorem claim2_classify_error_witness :
    classify ["pizza"] ⟨"balanced", [], 2⟩ = .error .InvalidCategory
      ∧ classify ["dairy"] ⟨"balanced", [], 7⟩ = .error .InvalidProfile
      ∧ ∃ r, classify ["dairy"] ⟨"balanced", [], 2⟩ = .ok r :=
  ⟨(claim2_classify_error_conditions ["pizza"] ⟨"balanced", [], 2⟩).1 rfl,
   (claim2_classify_error_conditions ["dairy"] ⟨"balanced", [], 7⟩).2.1 rfl rfl,
   (claim2_classify_error_conditions ["dairy"] ⟨"balanced", [], 2⟩).2.2 rfl rfl⟩

/-- C3 counterexample: a successful POST to the food-analysis endpoint, at
a concrete input, returns a body that has no "confidenceScore" key at all —
the confidence score is under the key "confidence" — refuting the claimed
key name. -/
theorem claim3_confidenceScore_key_absent :
    (simpleHandler ⟨.POST, some "img64", some "idli"⟩ "2024-01-01T00:00:00.000Z").status = 200
      ∧ (simpleHandler ⟨.POST, some "img64", some "idli"⟩ "2024-01-01T00:00:00.000Z").body
          = some (mockAnalysis "2024-01-01T00:00:00.000Z")
      ∧ (mockAnalysis "2024-01-01T00:00:00.000Z").lookup "confidenceScore" = none
      ∧ (mockAnalysis "2024-01-01T00:00:00.000Z").lookup "confidence" = some (.nat 85) :=
  ⟨rfl, rfl, rfl, rfl⟩

/-- C3 amended: every successful analysis response the program itself
builds — the mock analysis of the simple endpoint and the fallback
analysis of the Gemini endpoint — contains the fields reaction, explanation,
alternatives (an array) and the confidence score under the key
"confidence" (there is no "confidenceScore" key). -/
theorem claim3_success_fields_amended (img fn key now : String) (ms : Nat)
    (hi : jsTruthy (some img) = true) (hk : jsTruthy (some key) = true) :
    (simpleHandler ⟨.POST, some img, some fn⟩ now).status = 200
      ∧ (simpleHandler ⟨.POST, some img, some fn⟩ now).body = some (mockAnalysis now)
      ∧ (mockAnalysis now).lookup "reaction" = some (.str "caution")
      ∧ (∃ s, (mockAnalysis now).lookup "explanation" = some (.str s))
      ∧ (∃ xs, (mockAnalysis now).lookup "alternatives" = some (.arr xs))
      ∧ (mockAnalysis now).lookup "confidence" = some (.nat 85)
      ∧ (mockAnalysis now).lookup "confidenceScore" = none
      ∧ (geminiHandler (some key) ⟨.POST, some img, some fn⟩ (.success none) now ms).status = 200
      ∧ (geminiHandler (some key) ⟨.POST, some img, some fn⟩ (.success none) now ms).body
          = some (addMeta (fallbackAnalysis now) ms)
      ∧ (addMeta (fallbackAnalysis now) ms).lookup "reaction" = some (.str "caution")
      ∧ (∃ s, (addMeta (fallbackAnalysis now) ms).lookup "explanation" = some (.str s))
      ∧ (∃ xs, (addMeta (fallbackAnalysis now) ms).lookup "alternatives" = some (.arr xs))
      ∧ (addMeta (fallbackAnalysis now) ms).lookup "confidence" = some (.nat 75)
      ∧ (addMeta (fallbackAnalysis now) ms).lookup "confidenceScore" = none := by
  refine ⟨?_, ?_, rfl, ⟨_, rfl⟩, ⟨_, rfl⟩, rfl, rfl, ?_, ?_, rfl, ⟨_, rfl⟩, ⟨_, rfl⟩, rfl, rfl⟩
  · simp [simpleHandler, hi]
  · simp [simpleHandler, hi]
  · simp [geminiHandler, hi, hk]
  · simp [geminiHandler, hi, hk]

/-- Witness for C3 amended: the concrete success responses at a fixed
image, food name, API key and clock. -/
theorem claim3_success_fields_witness :
    (simpleHandler ⟨.POST, some "img64", some "idli"⟩ "t").status = 200
      ∧ (addMeta (fallbackAnalysis "t") 7).lookup "confidence" = some (.nat 75)
      ∧ (addMeta (fallbackAnalysis "t") 7).lookup "confidenceScore" = none :=
  ⟨(claim3_success_fields_amended "img64" "idli" "k" "t" 7 rfl rfl).1,
   (claim3_success_fields_amended "img64" "idli" "k" "t" 7 rfl rfl).2.2.2.2.2.2.2.2.2.2.2.2.1,
   (claim3_success_fields_amended "img64" "idli" "k" "t" 7 rfl rfl).2.2.2.2.2.2.2.2.2.2.2.2.2⟩

/-- C4: whenever the Gemini reply cannot be parsed as JSON, the handler
still answers HTTP 200 with the locally built fallback analysis, flagged
recognitionMethod "gemini_ai_fallback", which differs from the
"gemini_ai" marker an AI-derived (successfully parsed) result carries —
so callers can distinguish the two. -/
theorem claim4_fallback_flagged (key img fn now : String) (ms : Nat)
    (hk : jsTruthy (some key) = true) (hi : jsTruthy (some img) = true) :
    (geminiHandler (some key) ⟨.POST, some img, some fn⟩ (.success none) now ms).status = 200
      ∧ (geminiHandler (some key) ⟨.POST, some img, some fn⟩ (.success none) now ms).body
          = some (addMeta (fallbackAnalysis now) ms)
      ∧ (addMeta (fallbackAnalysis now) ms).lookup "recognitionMethod"
          = some (.str "gemini_ai_fallback")
      ∧ ("gemini_ai_fallback" : String) ≠ "gemini_ai"
      ∧ ∀ j : Json, j.lookup "recognitionMethod" = some (.str "gemini_ai") →
          (geminiHandler (some key) ⟨.POST, some img, some fn⟩ (.success (some j)) now ms).body
              = some (addMeta j ms)
            ∧ (addMeta j ms).lookup "recognitionMethod" = some (.str "gemini_ai") := by
  refine ⟨?_, ?_, rfl, by decide, fun j hj => ⟨?_, ?_⟩⟩
  · simp [geminiHandler, hk, hi]
  · simp [geminiHandler, hk, hi]
  · simp [geminiHandler, hk, hi]
  · rw [lookup_addMeta j ms "recognitionMethod" rfl rfl rfl]
    exact hj

/-- Witness for C4: the concrete unparsable-reply response and a concrete
AI-derived payload keeping its "gemini_ai" marker. -/
theorem claim4_fallback_flagged_witness :
    (geminiHandler (some "k") ⟨.POST, some "img64", some "dosa"⟩ (.success none) "t" 0).status = 200
      ∧ (addMeta (fallbackAnalysis "t") 0).lookup "recognitionMethod"
          = some (.str "gemini_ai_fallback")
      ∧ (addMeta overconfidentPayload 0).lookup "recognitionMethod"
          = some (.str "gemini_ai") :=
  ⟨(claim4_fallback_flagged "k" "img64" "dosa" "t" 0 rfl rfl).1,
   (claim4_fallback_flagged "k" "img64" "dosa" "t" 0 rfl rfl).2.2.1,
   ((claim4_fallback_flagged "k" "img64" "dosa" "t" 0 rfl rfl).2.2.2.2
      overconfidentPayload rfl).2⟩

/-- C5: classification is deterministic — two successful `classify` runs on
identical inputs agree, the confidence score is a fixed constant per fired
rule, and the reaction, explanation and confidence fields of the mock
handler do not depend on the time; no randomness enters any of these fields. -/
theorem claim5_classify_deterministic :
    (∀ cats p r1 r2, classify cats p = .ok r1 → classify cats p = .ok r2 → r1 = r2)
      ∧ (∀ c1 p1 c2 p2 r1 r2, classify c1 p1 = .ok r1 → classify c2 p2 = .ok r2 →
          firedRule c1 p1 = firedRule c2 p2 → r1.confidenceScore = r2.confidenceScore)
      ∧ (∀ t1 t2 : String,
          (mockAnalysis t1).lookup "reaction" = (mockAnalysis t2).lookup "reaction"
            ∧ (mockAnalysis t1).lookup "explanation" = (mockAnalysis t2).lookup "explanation"
            ∧ (mockAnalysis t1).lookup "confidence" = (mockAnalysis t2).lookup "confidence") := by
  refine ⟨fun cats p r1 r2 h1 h2 => ?_, fun c1 p1 c2 p2 r1 r2 h1 h2 hfr => ?_,
    fun t1 t2 => ⟨rfl, rfl, rfl⟩⟩
  · exact Except.ok.inj (h1.symm.trans h2)
  · rw [classify_ok_eq c1 p1 r1 h1, classify_ok_eq c2 p2 r2 h2, hfr]

/-- Witness for C5: two runs with the same fired rule yield the same
confidence, and the mock fields agree across two distinct timestamps. -/
theorem claim5_deterministic_witness :
    (⟨Reaction.avoid, "Dairy conflicts with your lactose sensitivity", 90⟩ : ClassifyResult).confidenceScore
        = (⟨Reaction.avoid, "Dairy conflicts with your lactose sensitivity", 90⟩ : ClassifyResult).confidenceScore
      ∧ (mockAnalysis "2024-01-01T00:00:00.000Z").lookup "reaction"
        = (mockAnalysis "2025-06-30T12:00:00.000Z").lookup "reaction" :=
  ⟨claim5_classify_deterministic.2.1 ["dairy"] ⟨"balanced", ["lactose"], 2⟩
      ["dairy", "gentle"] ⟨"balanced", ["lactose"], 2⟩ _ _ rfl rfl rfl,
   (claim5_classify_deterministic.2.2 "2024-01-01T00:00:00.000Z" "2025-06-30T12:00:00.000Z").1⟩

/-- C7 counterexample: the Gemini handler forwards a parsed upstream
payload without range-checking its confidence — a reply with confidence
150 is returned as a successful analysis carrying confidence 150 > 100. -/
theorem claim7_confidence_out_of_range_forwarded :
    (geminiHandler (some "k") ⟨.POST, some "img64", none⟩
        (.success (some overconfidentPayload)) "t" 0).status = 200
      ∧ (geminiHandler (some "k") ⟨.POST, some "img64", none⟩
          (.success (some overconfidentPayload)) "t" 0).body
          = some (addMeta overconfidentPayload 0)
      ∧ (addMeta overconfidentPayload 0).lookup "confidence" = some (.nat 150)
      ∧ ¬(150 ≤ 100) :=
  ⟨rfl, rfl, rfl, by decide⟩

/-- C7 amended: every analysis the program itself constructs carries an
integer confidence between 0 and 100 — the mock analysis (85), the Gemini
fallback (75) and every successful rule-engine result; the Gemini success
path merely forwards the upstream confidence without range validation. -/
theorem claim7_local_confidence_bounds_amended (now : String) (ms : Nat) :
    (mockAnalysis now).lookup "confidence" = some (.nat 85)
      ∧ (addMeta (fallbackAnalysis now) ms).lookup "confidence" = some (.nat 75)
      ∧ 85 ≤ 100 ∧ 75 ≤ 100
      ∧ ∀ cats p r, classify cats p = .ok r → r.confidenceScore ≤ 100 := by
  refine ⟨rfl, rfl, by decide, by decide, fun cats p r h => ?_⟩
  rw [classify_ok_eq cats p r h]
  exact outcomeAt_confidence_le (firedRule cats p)

/-- Witness for C7 amended: the bounds at a concrete timestamp, clock and
classification run. -/
theorem claim7_confidence_bounds_witness :
    (mockAnalysis "t").lookup "confidence" = some (.nat 85)
      ∧ (⟨Reaction.avoid, "Dairy conflicts with your lactose sensitivity", 90⟩
          : ClassifyResult).confidenceScore ≤ 100 :=
  ⟨(claim7_local_confidence_bounds_amended "t" 0).1,
   (claim7_local_confidence_bounds_amended "t" 0).2.2.2.2 ["dairy"]
      ⟨"balanced", ["lactose"], 2⟩ _ rfl⟩

/-- C8 counterexample: the Gemini handler forwards a parsed upstream
payload without vocabulary-checking its reaction — a reply with reaction
"delicious" is returned as a successful analysis carrying that reaction,
which is outside excellent/suitable/caution/avoid. -/
theorem claim8_reaction_outside_vocabulary_forwarded :
    (geminiHandler (some "k") ⟨.POST, some "img64", none⟩
        (.success (some oddReactionPayload)) "t" 0).status = 200
      ∧ (geminiHandler (some "k") ⟨.POST, some "img64", none⟩
          (.success (some oddReactionPayload)) "t" 0).body
          = some (addMeta oddReactionPayload 0)
      ∧ (addMeta oddReactionPayload 0).lookup "reaction" = some (.str "delicious")
      ∧ ("delicious" : String)
          ∉ (["excellent", "suitable", "caution", "avoid"] : List String) :=
  ⟨rfl, rfl, rfl, by decide⟩

/-- C8 amended: every reaction the program itself produces is drawn from
the closed vocabulary — the mock analysis and Gemini fallback both carry
"caution", and every successful rule-engine verdict is
suitable/caution/avoid; the Gemini success path merely forwards the
upstream reaction without validating it against the vocabulary. -/
theorem claim8_reaction_vocabulary_amended (now : String) (ms : Nat) :
    (mockAnalysis now).lookup "reaction" = some (.str "caution")
      ∧ (addMeta (fallbackAnalysis now) ms).lookup "reaction" = some (.str "caution")
      ∧ ("caution" : String) ∈ (["excellent", "suitable", "caution", "avoid"] : List String)
      ∧ ∀ cats p r, classify cats p = .ok r →
          r.reaction ∈ [Reaction.suitable, Reaction.caution, Reaction.avoid] := by
  refine ⟨rfl, rfl, by decide, fun cats p r h => ?_⟩
  rw [classify_ok_eq cats p r h]
  exact outcomeAt_reaction_mem (firedRule cats p)

/-- Witness for C8 amended: the vocabulary facts at a concrete timestamp
and classification run. -/
theorem claim8_reaction_vocabulary_witness :
    (mockAnalysis "t").lookup "reaction" = some (.str "caution")
      ∧ (⟨Reaction.avoid, "Dairy conflicts with your lactose sensitivity", 90⟩
          : ClassifyResult).reaction
          ∈ [Reaction.suitable, Reaction.caution, Reaction.avoid] :=
  ⟨(claim8_reaction_vocabulary_amended "t" 0).1,
   (claim8_reaction_vocabulary_amended "t" 0).2.2.2 ["dairy"]
      ⟨"balanced", ["lactose"], 2⟩ _ rfl⟩

/-- C9 counterexample: with GEMINI_API_KEY present but empty — a set
environment variable, yet JavaScript-falsy — the health endpoint reports
"not_configured", refuting "if the variable is present, the health
endpoint reports configured". -/
theorem claim9_empty_key_reports_not_configured :
    (some "" : Option String) ≠ none
      ∧ (healthHandler (some "") ⟨.GET, none, none⟩ "t").body.map
          (fun j => j.lookup "gemini") = some (some (.str "not_configured"))
      ∧ ("not_configured" : String) ≠ "configured" :=
  ⟨by decide, rfl, by decide⟩

/-- C9 amended: with GEMINI_API_KEY unset or empty (JavaScript-falsy),
every POST to the Gemini handler is answered HTTP 500 "API key not
configured" independently of the AI outcome (the model is never invoked),
and the health endpoint reports "not_configured"; with a non-empty key
the health endpoint reports "configured". -/
theorem claim9_api_key_guard_amended (apiKey : Option String) (req : Req)
    (ai ai2 : AiOutcome) (now : String) (ms : Nat) :
    (jsTruthy apiKey = false → req.method = .POST →
        (geminiHandler apiKey req ai now ms).status = 500
          ∧ (geminiHandler apiKey req ai now ms).body
              = some (.obj
                  [ ("error", .str "Configuration error")
                  , ("message", .str "API key not configured") ])
          ∧ geminiHandler apiKey req ai now ms = geminiHandler apiKey req ai2 now ms)
      ∧ (jsTruthy apiKey = false → req.method ≠ .OPTIONS →
          (healthHandler apiKey req now).body.map (fun j => j.lookup "gemini")
            = some (some (.str "not_configured")))
      ∧ (jsTruthy apiKey = true → req.method ≠ .OPTIONS →
          (healthHandler apiKey req now).body.map (fun j => j.lookup "gemini")
            = some (some (.str "configured"))) := by
  refine ⟨fun h hm => ?_, fun h hm => ?_, fun h hm => ?_⟩
  · exact ⟨by simp [geminiHandler, hm, h], by simp [geminiHandler, hm, h],
      by simp [geminiHandler, hm, h]⟩
  · simp only [healthHandler, hm, h, if_false, ite_false]
    rfl
  · simp only [healthHandler, hm, h, if_true, ite_true]
    rfl

/-- Witness for C9 amended: the unset key is refused with 500 and reported
"not_configured"; a concrete non-empty key is reported "configured". -/
theorem claim9_api_key_guard_witness :
    (geminiHandler none ⟨.POST, some "img64", none⟩ (.failure "boom") "t" 0).status = 500
      ∧ (healthHandler none ⟨.GET, none, none⟩ "t").body.map
          (fun j => j.lookup "gemini") = some (some (.str "not_configured"))
      ∧ (healthHandler (some "k") ⟨.GET, none, none⟩ "t").body.map
          (fun j => j.lookup "gemini") = some (some (.str "configured")) :=
  ⟨((claim9_api_key_guard_amended none ⟨.POST, some "img64", none⟩
      (.failure "boom") (.success none) "t" 0).1 rfl rfl).1,
   (claim9_api_key_guard_amended none ⟨.GET, none, none⟩
      (.failure "boom") (.failure "boom") "t" 0).2.1 rfl (by decide),
   (claim9_api_key_guard_amended (some "k") ⟨.GET, none, none⟩
      (.failure "boom") (.failure "boom") "t" 0).2.2 rfl (by decide)⟩

/-- C10: both analyze handlers answer OPTIONS with HTTP 200 and an empty
body; any method other than OPTIONS or POST is answered HTTP 405 with an
error body, and the answer of the Gemini handler does not depend on the AI
outcome — the external service is never contacted and no analysis is
built. -/
theorem claim10_method_gating (req : Req) (apiKey : Option String)
    (ai ai2 : AiOutcome) (now : String) (ms : Nat) :
    (req.method = .OPTIONS →
        simpleHandler req now = ⟨200, none⟩
          ∧ geminiHandler apiKey req ai now ms = ⟨200, none⟩)
      ∧ (req.method ≠ .OPTIONS → req.method ≠ .POST →
          simpleHandler req now
              = ⟨405, some (.obj [("error", .str "Method not allowed")])⟩
            ∧ geminiHandler apiKey req ai now ms
              = ⟨405, some (.obj
                  [ ("error", .str "Method not allowed")
                  , ("message", .str "Only POST requests are supported") ])⟩
            ∧ geminiHandler apiKey req ai now ms = geminiHandler apiKey req ai2 now ms) := by
  constructor
  · intro h
    exact ⟨by simp [simpleHandler, h], by simp [geminiHandler, h]⟩
  · intro h1 h2
    exact ⟨by simp [simpleHandler, h1, h2], by simp [geminiHandler, h1, h2],
      by simp [geminiHandler, h1, h2]⟩

/-- Witness for C10: a concrete OPTIONS preflight and a concrete GET. -/
theorem claim10_method_gating_witness :
    simpleHandler ⟨.OPTIONS, none, none⟩ "t" = ⟨200, none⟩
      ∧ (geminiHandler (some "k") ⟨.GET, none, none⟩ (.failure "boom") "t" 0).status = 405 :=
  ⟨((claim10_method_gating ⟨.OPTIONS, none, none⟩ (some "k")
      (.failure "boom") (.success none) "t" 0).1 rfl).1,
   by rw [((claim10_method_gating ⟨.GET, none, none⟩ (some "k")
      (.failure "boom") (.success none) "t" 0).2 (by decide) (by decide)).2.1]⟩

end GutSense
